import Mathlib

/-!
Shallow embedding of a blog-post CRUD HTTP service (FastAPI + MongoDB).

Source files: `src/main.py` (route handlers, serialization, diagnostics) and
`src/schemas.py` (pydantic schemas).  Stored documents are modelled as
association lists from field names to BSON-like values; the Mongo collection is
a list of stored documents in insertion order.  `datetime` values are modelled
as integers, `ObjectId` as the natural number denoted by a 24-digit hex string.
-/

namespace Blog

set_option maxRecDepth 8000

/-- The field names that occur in blog-post documents. -/
inductive Field where
  | title
  | slug
  | excerpt
  | content
  | author
  | cover_image_url
  | tags
  | published
  | published_at
  | created_at
  | updated_at
deriving DecidableEq, Repr

/-- A BSON-like value as stored in a document: null, string, boolean,
datetime (modelled as an integer timestamp), or an array of strings. -/
inductive Value where
  | vNull
  | vStr (s : String)
  | vBool (b : Bool)
  | vTime (t : Int)
  | vList (l : List String)
deriving DecidableEq, Repr

/-- A document body (the Mongo document minus its `_id`): a Python-dict-like
association list preserving insertion order. -/
abbrev Doc := List (Field × Value)

/-- Association-list lookup: the value bound to `f`, like Python `d.get(f)`
(returns `none` when the key is absent). -/
def alookup {β : Type} : List (Field × β) → Field → Option β
  | [], _ => none
  | (k, v) :: rest, f => if k = f then some v else alookup rest f

/-- Python dict assignment `d[f] = v`: replace in place if the key exists,
otherwise append at the end. -/
def dictSet : Doc → Field → Value → Doc
  | [], f, v => [(f, v)]
  | (k, w) :: rest, f, v =>
      if k = f then (k, v) :: rest else (k, w) :: dictSet rest f v

/-- Python `d.setdefault(f, v)`: insert `f ↦ v` only when `f` is absent. -/
def dictSetdefault (d : Doc) (f : Field) (v : Value) : Doc :=
  if (alookup d f).isSome then d else d ++ [(f, v)]

/-- Mongo `$set` semantics: apply each binding of the update in order. -/
def applySet (d : Doc) (ud : Doc) : Doc :=
  ud.foldl (fun acc kv => dictSet acc kv.1 kv.2) d

/-- Python truthiness of a stored value (`None`, `False`, `""` and `[]` are
falsy; `datetime` objects are always truthy). -/
def truthyVal : Value → Bool
  | .vNull => false
  | .vStr s => !(s = "")
  | .vBool b => b
  | .vTime _ => true
  | .vList l => !(l = [])

/-- Truthiness of `d.get(f)` (absent keys give `None`, hence falsy). -/
def pyGetTruthy (d : Doc) (f : Field) : Bool :=
  match alookup d f with
  | some v => truthyVal v
  | none => false

/-- A stored document: the generated `_id` plus the document body. -/
structure StoredDoc where
  oid : Nat
  fields : Doc
deriving DecidableEq, Repr

/-- The `blogpost` collection, in insertion order. -/
abbrev Store := List StoredDoc

/-- `find_one({"_id": oid})`: the first document with a matching id. -/
def findOne : Store → Nat → Option StoredDoc
  | [], _ => none
  | d :: rest, oid => if d.oid = oid then some d else findOne rest oid

/-- `update_one({"_id": oid}, {"$set": ud})`: update the first matching
document; returns the new collection and `matched_count`. -/
def updateOne : Store → Nat → Doc → Store × Nat
  | [], _, _ => ([], 0)
  | d :: rest, oid, ud =>
      if d.oid = oid then (⟨d.oid, applySet d.fields ud⟩ :: rest, 1)
      else
        let r := updateOne rest oid ud
        (d :: r.1, r.2)

/-- `delete_one({"_id": oid})`: remove the first matching document; returns
the new collection and `deleted_count`. -/
def deleteOne : Store → Nat → Store × Nat
  | [], _ => ([], 0)
  | d :: rest, oid =>
      if d.oid = oid then (rest, 1)
      else
        let r := deleteOne rest oid
        (d :: r.1, r.2)

/-- Hex digit test, as accepted by `bson.ObjectId`. -/
def isHexDigit (c : Char) : Bool :=
  c.isDigit || ('a' ≤ c && c ≤ 'f') || ('A' ≤ c && c ≤ 'F')

/-- Numeric value of a hex digit. -/
def hexVal (c : Char) : Nat :=
  if c.isDigit then c.toNat - '0'.toNat
  else if 'a' ≤ c && c ≤ 'f' then c.toNat - 'a'.toNat + 10
  else c.toNat - 'A'.toNat + 10

/-- `ObjectId(post_id)`: a string parses iff it is exactly 24 hexadecimal
characters; the resulting identifier is the denoted 96-bit number (so the
parse is case-insensitive, as for real ObjectIds).  A failing parse raises,
which callers turn into HTTP 400. -/
def parseObjectId (s : String) : Option Nat :=
  if s.length = 24 && s.toList.all isHexDigit then
    some (s.toList.foldl (fun a c => a * 16 + hexVal c) 0)
  else none

/-- Hex digit character (lowercase), for printing an ObjectId. -/
def hexDigitChar (n : Nat) : Char :=
  if n < 10 then Char.ofNat ('0'.toNat + n) else Char.ofNat ('a'.toNat + (n - 10))

/-- The `k` low hex digits of `v`, most significant first. -/
def natToHexAux : Nat → Nat → List Char
  | 0, _ => []
  | k + 1, v => natToHexAux k (v / 16) ++ [hexDigitChar (v % 16)]

/-- `str(doc["_id"])`: the 24-character lowercase hex rendering. -/
def oidString (oid : Nat) : String :=
  ⟨natToHexAux 24 oid⟩

/-- `BlogPostOut` (src/main.py): the API-facing representation of a post. -/
structure BlogPostOut where
  id : String
  title : String
  slug : String
  excerpt : Option String
  content : String
  author : String
  cover_image_url : Option String
  tags : List String
  published : Bool
  published_at : Option Int
  created_at : Option Int
  updated_at : Option Int
deriving DecidableEq, Repr

/-- Pydantic validation of a required `str` field: present, non-null string. -/
def asStr : Option Value → Option String
  | some (.vStr s) => some s
  | _ => none

/-- Pydantic validation of an `Optional[str]` field: absent or null become
`None`, a string is kept, anything else is a validation error. -/
def asOptStr : Option Value → Option (Option String)
  | none => some none
  | some .vNull => some none
  | some (.vStr s) => some (some s)
  | _ => none

/-- Pydantic validation of a `List[str]` field (with `doc.get("tags", [])`
supplying `[]` when absent): null or a non-list is a validation error. -/
def asTags : Option Value → Option (List String)
  | none => some []
  | some (.vList l) => some l
  | _ => none

/-- Pydantic validation of a `bool` field (with `doc.get("published", False)`
supplying `False` when absent). -/
def asBool : Option Value → Option Bool
  | none => some false
  | some (.vBool b) => some b
  | _ => none

/-- Pydantic validation of an `Optional[datetime]` field: absent or null
become `None`, a datetime is kept. -/
def asOptTime : Option Value → Option (Option Int)
  | none => some none
  | some .vNull => some none
  | some (.vTime t) => some (some t)
  | _ => none

/-- `serialize_post` (src/main.py): build a `BlogPostOut` from a stored
document; `none` models a pydantic validation error (an unhandled exception,
hence a 500 response). -/
def serialize_post (d : StoredDoc) : Option BlogPostOut := do
  let title ← asStr (alookup d.fields .title)
  let slug ← asStr (alookup d.fields .slug)
  let excerpt ← asOptStr (alookup d.fields .excerpt)
  let content ← asStr (alookup d.fields .content)
  let author ← asStr (alookup d.fields .author)
  let cover ← asOptStr (alookup d.fields .cover_image_url)
  let tags ← asTags (alookup d.fields .tags)
  let published ← asBool (alookup d.fields .published)
  let published_at ← asOptTime (alookup d.fields .published_at)
  let created_at ← asOptTime (alookup d.fields .created_at)
  let updated_at ← asOptTime (alookup d.fields .updated_at)
  pure ⟨oidString d.oid, title, slug, excerpt, content, author, cover, tags,
        published, published_at, created_at, updated_at⟩

/-- An optional string as dumped by pydantic: `None` becomes null. -/
def strOrNull : Option String → Value
  | none => .vNull
  | some s => .vStr s

/-- An optional datetime as dumped by pydantic: `None` becomes null. -/
def timeOrNull : Option Int → Value
  | none => .vNull
  | some t => .vTime t

/-- `BlogPostCreate = BlogPost` (src/schemas.py): the validated create
payload.  Optional fields default as in the pydantic model. -/
structure BlogPostCreate where
  title : String
  slug : String
  excerpt : Option String := none
  content : String
  author : String
  cover_image_url : Option String := none
  tags : List String := []
  published : Bool := false
  published_at : Option Int := none
deriving DecidableEq, Repr

/-- The pydantic validation constraints on a create payload that the claims
mention: `title` and `slug` have `min_length=3`. -/
def validCreate (p : BlogPostCreate) : Prop :=
  3 ≤ p.title.length ∧ 3 ≤ p.slug.length

/-- `payload.model_dump()` for a create payload: every schema field is
present, optional ones as explicit nulls (insertion order = field order). -/
def createDump (p : BlogPostCreate) : Doc :=
  [(.title, .vStr p.title), (.slug, .vStr p.slug),
   (.excerpt, strOrNull p.excerpt), (.content, .vStr p.content),
   (.author, .vStr p.author), (.cover_image_url, strOrNull p.cover_image_url),
   (.tags, .vList p.tags), (.published, .vBool p.published),
   (.published_at, timeOrNull p.published_at)]

/-- `BlogPostUpdate` (src/main.py): the partial-update payload.  Each field is
an option-of-option: the outer layer records whether the field was explicitly
present in the request body (`model_fields_set`), the inner layer whether it
was an explicit `null`. -/
structure BlogPostUpdate where
  title : Option (Option String) := none
  slug : Option (Option String) := none
  excerpt : Option (Option String) := none
  content : Option (Option String) := none
  author : Option (Option String) := none
  cover_image_url : Option (Option String) := none
  tags : Option (Option (List String)) := none
  published : Option (Option Bool) := none
  published_at : Option (Option Int) := none
deriving DecidableEq, Repr

/-- The nine update-payload fields in model order, each with `none` when the
field was unset and `some v` when it was explicitly supplied as value `v`. -/
def presentFields (p : BlogPostUpdate) : List (Field × Option Value) :=
  [(.title, p.title.map strOrNull), (.slug, p.slug.map strOrNull),
   (.excerpt, p.excerpt.map strOrNull), (.content, p.content.map strOrNull),
   (.author, p.author.map strOrNull),
   (.cover_image_url, p.cover_image_url.map strOrNull),
   (.tags, p.tags.map (fun o => o.elim Value.vNull Value.vList)),
   (.published, p.published.map (fun o => o.elim Value.vNull Value.vBool)),
   (.published_at, p.published_at.map timeOrNull)]

/-- `payload.model_dump(exclude_unset=True)`: the dict of explicitly-supplied
fields (explicit nulls included). -/
def dumpUpdate (p : BlogPostUpdate) : Doc :=
  (presentFields p).filterMap (fun kv => kv.2.map (fun v => (kv.1, v)))

/-- The value the request body explicitly supplies for a field, if any. -/
def explicitValue (p : BlogPostUpdate) (f : Field) : Option Value :=
  (alookup (presentFields p) f).bind id

/-- Lines 156-157 of src/main.py: if `published` is in the update set and
truthy (`"published" in update_data and update_data["published"]`), then
`update_data.setdefault("published_at", datetime.utcnow())`. -/
def publishTrueDefault (ud : Doc) (nowPub : Int) : Doc :=
  if pyGetTruthy ud .published then
    dictSetdefault ud .published_at (.vTime nowPub)
  else ud

/-- Lines 158-159 of src/main.py: if `published` is in the update set and
`update_data["published"] is False`, then
`update_data.setdefault("published_at", None)`. -/
def publishFalseDefault (ud : Doc) : Doc :=
  if alookup ud .published = some (.vBool false) then
    dictSetdefault ud .published_at .vNull
  else ud

/-- Lines 156-159 of src/main.py: the two publish-state defaults in order.
`setdefault` never overwrites a supplied value. -/
def publishTransition (ud : Doc) (nowPub : Int) : Doc :=
  publishFalseDefault (publishTrueDefault ud nowPub)

/-- The update dict actually passed to `$set`: the explicitly-supplied fields,
the publish-transition default for `published_at`, and `updated_at = now`. -/
def finalUpdateData (p : BlogPostUpdate) (nowPub nowUpd : Int) : Doc :=
  dictSet (publishTransition (dumpUpdate p) nowPub) .updated_at (.vTime nowUpd)

/-- The outcome of a request handler. -/
inductive HResult where
  | ok (post : BlogPostOut)
  | okDelete
  | httpError (status : Nat) (detail : String)
  | serverError (detail : String)
deriving DecidableEq, Repr

/-- Whether the outcome is an `HTTPException` with the given status code. -/
def HResult.isStatus : HResult → Nat → Bool
  | .httpError s _, n => s = n
  | _, _ => false

/-- `get_post` (src/main.py).  The `try` block in the source wraps both
`ObjectId(post_id)` and the `find_one` call, so `findRaises` (a storage-layer
exception during `find_one`) lands in the same `except` as a malformed id. -/
def get_post (postId : String) (db : Store) (findRaises : Bool) : HResult :=
  match parseObjectId postId with
  | none => .httpError 400 "Invalid post id"
  | some oid =>
    if findRaises then .httpError 400 "Invalid post id"
    else
      match findOne db oid with
      | none => .httpError 404 "Post not found"
      | some d =>
        match serialize_post d with
        | some out => .ok out
        | none => .serverError ("response validation failed")

/-- The result of a state-changing handler: HTTP outcome, resulting
collection, and whether the storage write call was reached. -/
structure UpdateOutcome where
  result : HResult
  db : Store
  storageCalled : Bool
deriving DecidableEq, Repr

/-- `update_post` (src/main.py): parse id (400 on failure), reject an empty
update set (400), apply the publish transition and `updated_at` stamp, then
`update_one` (404 when nothing matched) and re-fetch.  `updateRaises` models a
storage-layer exception in `update_one`, which no handler code catches. -/
def update_post (postId : String) (p : BlogPostUpdate) (nowPub nowUpd : Int)
    (db : Store) (updateRaises : Bool) : UpdateOutcome :=
  match parseObjectId postId with
  | none => ⟨.httpError 400 "Invalid post id", db, false⟩
  | some oid =>
    if dumpUpdate p = [] then ⟨.httpError 400 "No data to update", db, false⟩
    else if updateRaises then ⟨.serverError ("storage failure"), db, true⟩
    else
      let r := updateOne db oid (finalUpdateData p nowPub nowUpd)
      if r.2 = 0 then ⟨.httpError 404 "Post not found", r.1, true⟩
      else
        match findOne r.1 oid with
        | some d =>
          match serialize_post d with
          | some out => ⟨.ok out, r.1, true⟩
          | none => ⟨.serverError ("response validation failed"), r.1, true⟩
        | none => ⟨.serverError ("post vanished"), r.1, true⟩

/-- `delete_post` (src/main.py): parse id (400 on failure), `delete_one`
(404 when nothing was deleted).  `deleteRaises` models a storage-layer
exception in `delete_one`, which no handler code catches. -/
def delete_post (postId : String) (db : Store) (deleteRaises : Bool) :
    UpdateOutcome :=
  match parseObjectId postId with
  | none => ⟨.httpError 400 "Invalid post id", db, false⟩
  | some oid =>
    if deleteRaises then ⟨.serverError ("storage failure"), db, true⟩
    else
      let r := deleteOne db oid
      if r.2 = 0 then ⟨.httpError 404 "Post not found", r.1, true⟩
      else ⟨.okDelete, r.1, true⟩

/-- Modelled from the spec: `create_document` lives in the repository's
`database.py`, which is not under src/.  Per §4.2 of the spec it is
"insert-one (returns generated identifier)": the document is appended to the
collection and the store-generated identifier `newId` is returned. -/
def create_document (db : Store) (fields : Doc) (newId : Nat) : Store × Nat :=
  (db ++ [⟨newId, fields⟩], newId)

/-- `create_post` (src/main.py): dump the validated payload, stamp
`published_at = now` when `published` is truthy and `published_at` is falsy,
insert, re-fetch by the generated id, serialize.  `newId` is the identifier
the store generates for this insert. -/
def create_post (p : BlogPostCreate) (now : Int) (db : Store) (newId : Nat) :
    Option BlogPostOut × Store :=
  let data := createDump p
  let data :=
    if pyGetTruthy data .published && !(pyGetTruthy data .published_at) then
      dictSet data .published_at (.vTime now)
    else data
  let ins := create_document db data newId
  match findOne ins.1 ins.2 with
  | some d => (serialize_post d, ins.1)
  | none => (none, ins.1)

/-- The sort key of `.sort("created_at", -1)`: the document's `created_at`
datetime; a missing or null `created_at` sorts below every datetime (BSON
null/missing compare below dates). -/
def createdKey (d : StoredDoc) : Option Int :=
  match alookup d.fields .created_at with
  | some (.vTime t) => some t
  | _ => none

/-- Total order on sort keys, `none` at the bottom. -/
def keyLE : Option Int → Option Int → Bool
  | none, _ => true
  | some _, none => false
  | some a, some b => decide (a ≤ b)

/-- `d₁` comes no later than `d₂` in descending `created_at` order. -/
def createdDesc (d₁ d₂ : StoredDoc) : Prop :=
  keyLE (createdKey d₂) (createdKey d₁) = true

instance : DecidableRel createdDesc := fun d₁ d₂ =>
  instDecidableEqBool (keyLE (createdKey d₂) (createdKey d₁)) true

/-- Python truthiness of the optional `tag` query parameter: `None` and the
empty string are falsy (`if tag:` in src/main.py line 102). -/
def tagFilterActive : Option String → Bool
  | some t => !(t = "")
  | none => false

/-- Mongo `{"tags": {"$in": [t]}}` on one document: matches when the `tags`
array contains `t`, or when `tags` is the scalar `t`. -/
def tagMatch (t : String) (d : StoredDoc) : Bool :=
  match alookup d.fields .tags with
  | some (.vList l) => l.contains t
  | some v => v = .vStr t
  | none => false

/-- Mongo `{"published": b}` on one document: equality on the stored field
(a document without the field does not match a boolean). -/
def pubMatch (b : Bool) (d : StoredDoc) : Bool :=
  alookup d.fields .published = some (.vBool b)

/-- The filter dict built by `list_posts` (src/main.py lines 99-103),
evaluated on one document. -/
def matchesFilter (pub : Option Bool) (tag : Option String) (d : StoredDoc) :
    Bool :=
  (match pub with
   | none => true
   | some b => pubMatch b d) &&
  (if tagFilterActive tag then tagMatch (tag.getD ("")) d else true)

/-- `Cursor.limit(limit)` in pymongo: a limit of 0 is "no limit"; a non-zero
limit caps the result at its absolute value (a negative limit means a single
batch of at most `|limit|` documents). -/
def applyLimit (limit : Int) (l : List StoredDoc) : List StoredDoc :=
  if limit = 0 then l else l.take limit.natAbs

/-- The documents `list_posts` iterates over:
`db["blogpost"].find(filter_query).sort("created_at", -1).limit(limit)`. -/
def listDocs (pub : Option Bool) (tag : Option String) (limit : Int)
    (db : Store) : List StoredDoc :=
  applyLimit limit (List.insertionSort createdDesc (db.filter (matchesFilter pub tag)))

/-- `list_posts` (src/main.py): serialize every selected document; `none`
models a response-validation failure (500). -/
def list_posts (pub : Option Bool) (tag : Option String) (limit : Int)
    (db : Store) : Option (List BlogPostOut) :=
  (listDocs pub tag limit db).mapM serialize_post

/-- The diagnostics object returned by `GET /test`. -/
structure DiagResponse where
  backend : String
  database : String
  database_url : Option String
  database_name : Option String
  connection_status : String
  collections : List String
deriving DecidableEq, Repr

/-- `test_database` (src/main.py): best-effort diagnostics.  `dbAvailable`
models `db is not None`; `envUrlSet` models `os.getenv("DATABASE_URL")`
being set; `dbName` models `db.name` when `hasattr(db, "name")`;
`listCollections` is the outcome of `db.list_collection_names()`, with
`.error e` modelling a raised exception whose `str` is `e`.  Every failure
is caught and rendered as a status string. -/
def test_database (dbAvailable : Bool) (envUrlSet : Bool)
    (dbName : Option String) (listCollections : Except String (List String)) :
    DiagResponse :=
  if dbAvailable then
    let url := some (if envUrlSet then "✅ Set" else "❌ Not Set")
    let name := some (dbName.getD ("✅ Connected"))
    match listCollections with
    | .ok cols =>
        ⟨"✅ Running", "✅ Connected & Working", url, name, "Connected",
         cols.take 10⟩
    | .error e =>
        ⟨"✅ Running", "⚠️ Connected but Error: " ++ e.take 80, url, name,
         "Connected", []⟩
  else
    ⟨"✅ Running", "⚠️ Available but not initialized", none, none,
     "Not Connected", []⟩

/-! ### Dictionary lemmas -/

/-- The keys of an association list, in order. -/
def keys {β : Type} (d : List (Field × β)) : List Field :=
  d.map Prod.fst

lemma keys_cons {β : Type} (k : Field) (v : β) (rest : List (Field × β)) :
    keys ((k, v) :: rest) = k :: keys rest := rfl

lemma alookup_eq_none_of_notmem {β : Type} {d : List (Field × β)} {f : Field}
    (h : f ∉ keys d) : alookup d f = none := by
  induction d with
  | nil => rfl
  | cons kv rest ih =>
    obtain ⟨k, v⟩ := kv
    rw [keys_cons, List.mem_cons, not_or] at h
    simp only [alookup, if_neg (fun he : k = f => h.1 he.symm)]
    exact ih h.2

lemma notmem_of_alookup_eq_none {β : Type} {d : List (Field × β)} {f : Field}
    (h : alookup d f = none) : f ∉ keys d := by
  induction d with
  | nil => simp [keys]
  | cons kv rest ih =>
    obtain ⟨k, v⟩ := kv
    by_cases hk : k = f
    · simp [alookup, hk] at h
    · simp only [alookup, if_neg hk] at h
      rw [keys_cons, List.mem_cons, not_or]
      exact ⟨fun he => hk he.symm, ih h⟩

lemma alookup_isSome_of_mem {β : Type} {d : List (Field × β)} {f : Field}
    (h : f ∈ keys d) : (alookup d f).isSome := by
  cases hl : alookup d f with
  | none => exact absurd h (notmem_of_alookup_eq_none hl)
  | some v => rfl

lemma alookup_append {β : Type} (d₁ d₂ : List (Field × β)) (f : Field) :
    alookup (d₁ ++ d₂) f
      = match alookup d₁ f with
        | some v => some v
        | none => alookup d₂ f := by
  induction d₁ with
  | nil => rfl
  | cons kv rest ih =>
    obtain ⟨k, v⟩ := kv
    by_cases hk : k = f
    · simp only [List.cons_append, alookup, if_pos hk]
    · simp only [List.cons_append, alookup, if_neg hk]
      exact ih

lemma alookup_dictSet_self (d : Doc) (f : Field) (v : Value) :
    alookup (dictSet d f v) f = some v := by
  induction d with
  | nil => simp [dictSet, alookup]
  | cons kv rest ih =>
    obtain ⟨k, w⟩ := kv
    by_cases hk : k = f
    · simp [dictSet, alookup, hk]
    · simp [dictSet, alookup, hk, ih]

lemma alookup_dictSet_ne (d : Doc) {f g : Field} (v : Value) (h : g ≠ f) :
    alookup (dictSet d f v) g = alookup d g := by
  induction d with
  | nil =>
    simp only [dictSet, alookup, if_neg (fun he : f = g => h he.symm)]
  | cons kv rest ih =>
    obtain ⟨k, w⟩ := kv
    by_cases hk : k = f
    · subst hk
      simp only [dictSet, if_pos rfl, alookup,
        if_neg (fun he : k = g => h he.symm)]
    · by_cases hg : k = g
      · simp only [dictSet, if_neg hk, alookup, if_pos hg]
      · simp only [dictSet, if_neg hk, alookup, if_neg hg]
        exact ih

lemma dictSet_eq_append_of_notmem {d : Doc} {f : Field} (v : Value)
    (h : f ∉ keys d) : dictSet d f v = d ++ [(f, v)] := by
  induction d with
  | nil => rfl
  | cons kv rest ih =>
    obtain ⟨k, w⟩ := kv
    rw [keys_cons, List.mem_cons, not_or] at h
    simp only [dictSet, if_neg (fun he : k = f => h.1 he.symm),
      List.cons_append]
    exact congrArg (List.cons (k, w)) (ih h.2)

lemma alookup_dictSetdefault_ne (d : Doc) {f g : Field} (v : Value)
    (h : g ≠ f) : alookup (dictSetdefault d f v) g = alookup d g := by
  unfold dictSetdefault
  by_cases hs : (alookup d f).isSome
  · rw [if_pos hs]
  · rw [if_neg hs, alookup_append]
    cases hl : alookup d g with
    | none =>
      simp only [hl, alookup, if_neg (fun he : f = g => h he.symm)]
    | some w => simp only [hl]

lemma alookup_dictSetdefault_self (d : Doc) (f : Field) (v : Value) :
    alookup (dictSetdefault d f v) f = some ((alookup d f).getD v) := by
  unfold dictSetdefault
  cases hl : alookup d f with
  | some w =>
    rw [if_pos (by simp [hl])]
    simp [hl]
  | none =>
    rw [if_neg (by simp [hl]), alookup_append]
    simp [hl, alookup]

lemma alookup_applySet (d ud : Doc) (f : Field) (h : (keys ud).Nodup) :
    alookup (applySet d ud) f
      = match alookup ud f with
        | some v => some v
        | none => alookup d f := by
  induction ud generalizing d with
  | nil => rfl
  | cons kv rest ih =>
    obtain ⟨k, v⟩ := kv
    rw [keys_cons, List.nodup_cons] at h
    have happ : applySet d ((k, v) :: rest) = applySet (dictSet d k v) rest := rfl
    by_cases hk : k = f
    · subst hk
      have hnone : alookup rest k = none := alookup_eq_none_of_notmem h.1
      rw [happ, ih _ h.2]
      simp [hnone, alookup, alookup_dictSet_self]
    · rw [happ, ih _ h.2]
      simp only [alookup, if_neg hk]
      cases hl : alookup rest f with
      | some w => simp only [hl]
      | none =>
        simp only [hl, alookup_dictSet_ne d v (fun he : f = k => hk he.symm)]

/-! ### Update-dump lemmas -/

lemma keys_filterMap_sublist (l : List (Field × Option Value)) :
    List.Sublist (keys (l.filterMap (fun kv => kv.2.map (fun v => (kv.1, v)))))
      (keys l) := by
  induction l with
  | nil => simp [keys]
  | cons kv rest ih =>
    obtain ⟨k, o⟩ := kv
    cases o with
    | none =>
      simp only [List.filterMap_cons, Option.map_none', keys_cons]
      exact ih.cons _
    | some v =>
      simp only [List.filterMap_cons, Option.map_some', keys_cons]
      exact ih.cons₂ _

lemma keys_presentFields (p : BlogPostUpdate) :
    keys (presentFields p)
      = [.title, .slug, .excerpt, .content, .author, .cover_image_url, .tags,
         .published, .published_at] := rfl

lemma keys_dumpUpdate_sublist (p : BlogPostUpdate) :
    List.Sublist (keys (dumpUpdate p))
      [.title, .slug, .excerpt, .content, .author, .cover_image_url, .tags,
       .published, .published_at] :=
  keys_presentFields p ▸ keys_filterMap_sublist (presentFields p)

lemma nodup_keys_dumpUpdate (p : BlogPostUpdate) :
    (keys (dumpUpdate p)).Nodup :=
  (keys_dumpUpdate_sublist p).nodup (by decide)

lemma updated_at_notmem_keys_dumpUpdate (p : BlogPostUpdate) :
    Field.updated_at ∉ keys (dumpUpdate p) := by
  intro hm
  exact absurd ((keys_dumpUpdate_sublist p).subset hm) (by decide)

lemma alookup_filterMap_dump (l : List (Field × Option Value)) (f : Field)
    (h : (keys l).Nodup) :
    alookup (l.filterMap (fun kv => kv.2.map (fun v => (kv.1, v)))) f
      = (alookup l f).bind id := by
  induction l with
  | nil => rfl
  | cons kv rest ih =>
    obtain ⟨k, o⟩ := kv
    rw [keys_cons, List.nodup_cons] at h
    by_cases hk : k = f
    · subst hk
      cases o with
      | some v =>
        simp [List.filterMap_cons, alookup]
      | none =>
        simp only [List.filterMap_cons, Option.map_none']
        have hnone : alookup
            (rest.filterMap (fun kv => kv.2.map (fun v => (kv.1, v)))) k = none :=
          alookup_eq_none_of_notmem
            (fun hm => h.1 ((keys_filterMap_sublist rest).subset hm))
        simp [alookup, hnone]
    · cases o with
      | some v =>
        simp only [List.filterMap_cons, Option.map_some', alookup, if_neg hk]
        exact ih h.2
      | none =>
        simp only [List.filterMap_cons, Option.map_none', alookup, if_neg hk]
        exact ih h.2

lemma alookup_dumpUpdate (p : BlogPostUpdate) (f : Field) :
    alookup (dumpUpdate p) f = explicitValue p f :=
  alookup_filterMap_dump (presentFields p) f (by rw [keys_presentFields]; decide)

/-! ### Publish-transition lemmas -/

lemma alookup_publishTrueDefault_ne (ud : Doc) (n : Int) {f : Field}
    (h : f ≠ .published_at) :
    alookup (publishTrueDefault ud n) f = alookup ud f := by
  unfold publishTrueDefault
  by_cases hc : pyGetTruthy ud .published
  · rw [if_pos hc, alookup_dictSetdefault_ne _ _ h]
  · rw [if_neg hc]

lemma alookup_publishFalseDefault_ne (ud : Doc) {f : Field}
    (h : f ≠ .published_at) :
    alookup (publishFalseDefault ud) f = alookup ud f := by
  unfold publishFalseDefault
  by_cases hc : alookup ud .published = some (.vBool false)
  · rw [if_pos hc, alookup_dictSetdefault_ne _ _ h]
  · rw [if_neg hc]

lemma alookup_publishTransition_ne (ud : Doc) (n : Int) {f : Field}
    (h : f ≠ .published_at) :
    alookup (publishTransition ud n) f = alookup ud f := by
  unfold publishTransition
  rw [alookup_publishFalseDefault_ne _ h, alookup_publishTrueDefault_ne _ _ h]

lemma alookup_publishTrueDefault_published_at (ud : Doc) (n : Int) :
    alookup (publishTrueDefault ud n) .published_at
      = match alookup ud .published_at with
        | some w => some w
        | none => if pyGetTruthy ud .published then some (.vTime n) else none := by
  unfold publishTrueDefault
  by_cases hc : pyGetTruthy ud .published
  · rw [if_pos hc, alookup_dictSetdefault_self]
    cases hpa : alookup ud .published_at <;> simp [hpa, hc]
  · rw [if_neg hc]
    cases hpa : alookup ud .published_at <;> simp [hpa, hc]

lemma alookup_publishFalseDefault_published_at (ud : Doc) :
    alookup (publishFalseDefault ud) .published_at
      = match alookup ud .published_at with
        | some w => some w
        | none =>
          if alookup ud .published = some (.vBool false) then some .vNull
          else none := by
  unfold publishFalseDefault
  by_cases hc : alookup ud .published = some (.vBool false)
  · rw [if_pos hc, alookup_dictSetdefault_self]
    cases hpa : alookup ud .published_at <;> simp [hpa, hc]
  · rw [if_neg hc]
    cases hpa : alookup ud .published_at <;> simp [hpa, hc]

lemma alookup_publishTransition_published_at (ud : Doc) (n : Int) :
    alookup (publishTransition ud n) .published_at
      = match alookup ud .published_at with
        | some w => some w
        | none =>
          if pyGetTruthy ud .published then some (.vTime n)
          else if alookup ud .published = some (.vBool false) then some .vNull
          else none := by
  unfold publishTransition
  rw [alookup_publishFalseDefault_published_at,
    alookup_publishTrueDefault_published_at,
    alookup_publishTrueDefault_ne ud n
      (show Field.published ≠ Field.published_at by decide)]
  cases hpa : alookup ud .published_at with
  | some w => simp
  | none =>
    by_cases hc : pyGetTruthy ud .published
    · simp [hc]
    · simp [hc]

/-! ### finalUpdateData lemmas -/

lemma explicitValue_published (p : BlogPostUpdate) :
    explicitValue p .published
      = p.published.map (fun o => o.elim Value.vNull Value.vBool) := rfl

lemma explicitValue_published_at (p : BlogPostUpdate) :
    explicitValue p .published_at = p.published_at.map timeOrNull := rfl

lemma explicitValue_tags (p : BlogPostUpdate) :
    explicitValue p .tags
      = p.tags.map (fun o => o.elim Value.vNull Value.vList) := rfl

lemma explicitValue_updated_at (p : BlogPostUpdate) :
    explicitValue p .updated_at = none := rfl

lemma alookup_finalUpdateData_updated_at (p : BlogPostUpdate) (n u : Int) :
    alookup (finalUpdateData p n u) .updated_at = some (.vTime u) :=
  alookup_dictSet_self _ _ _

lemma alookup_finalUpdateData_ne (p : BlogPostUpdate) (n u : Int) {f : Field}
    (h1 : f ≠ .published_at) (h2 : f ≠ .updated_at) :
    alookup (finalUpdateData p n u) f = explicitValue p f := by
  unfold finalUpdateData
  rw [alookup_dictSet_ne _ _ h2, alookup_publishTransition_ne _ _ h1,
    alookup_dumpUpdate]

lemma alookup_finalUpdateData_published_at (p : BlogPostUpdate) (n u : Int) :
    alookup (finalUpdateData p n u) .published_at
      = match explicitValue p .published_at with
        | some w => some w
        | none =>
          match explicitValue p .published with
          | some v =>
            if truthyVal v then some (.vTime n)
            else if v = .vBool false then some .vNull
            else none
          | none => none := by
  unfold finalUpdateData
  rw [alookup_dictSet_ne _ _
      (show Field.published_at ≠ Field.updated_at by decide),
    alookup_publishTransition_published_at]
  simp only [pyGetTruthy, alookup_dumpUpdate]
  cases hpa : explicitValue p .published_at with
  | some w => simp
  | none =>
    cases hp : explicitValue p .published with
    | none => simp
    | some v =>
      by_cases htr : truthyVal v
      · simp [htr]
      · by_cases hv : v = .vBool false
        · simp [htr, hv]
        · simp [htr, hv]

lemma keys_append_single {β : Type} (d : List (Field × β)) (f : Field) (v : β) :
    keys (d ++ [(f, v)]) = keys d ++ [f] := by
  simp [keys]

lemma mem_keys_dictSetdefault {d : Doc} {f : Field} {v : Value} {g : Field}
    (h : g ∈ keys (dictSetdefault d f v)) : g ∈ keys d ∨ g = f := by
  unfold dictSetdefault at h
  by_cases hs : (alookup d f).isSome
  · rw [if_pos hs] at h
    exact Or.inl h
  · rw [if_neg hs, keys_append_single] at h
    rcases List.mem_append.mp h with h1 | h1
    · exact Or.inl h1
    · exact Or.inr (by simpa using h1)

lemma nodup_keys_dictSetdefault {d : Doc} {f : Field} {v : Value}
    (h : (keys d).Nodup) : (keys (dictSetdefault d f v)).Nodup := by
  unfold dictSetdefault
  by_cases hs : (alookup d f).isSome
  · rw [if_pos hs]
    exact h
  · rw [if_neg hs, keys_append_single]
    have hf : f ∉ keys d :=
      notmem_of_alookup_eq_none (Option.not_isSome_iff_eq_none.mp hs)
    exact h.append (List.nodup_singleton f)
      (fun a ha hb => hf (List.mem_singleton.mp hb ▸ ha))

lemma mem_keys_publishTransition {ud : Doc} {n : Int} {g : Field}
    (h : g ∈ keys (publishTransition ud n)) :
    g ∈ keys ud ∨ g = .published_at := by
  unfold publishTransition publishFalseDefault publishTrueDefault at h
  by_cases h1 : pyGetTruthy ud .published
  · rw [if_pos h1] at h
    by_cases h2 :
        alookup (dictSetdefault ud .published_at (.vTime n)) .published
          = some (.vBool false)
    · rw [if_pos h2] at h
      rcases mem_keys_dictSetdefault h with h3 | h3
      · rcases mem_keys_dictSetdefault h3 with h4 | h4
        · exact Or.inl h4
        · exact Or.inr h4
      · exact Or.inr h3
    · rw [if_neg h2] at h
      exact mem_keys_dictSetdefault h
  · rw [if_neg h1] at h
    by_cases h2 : alookup ud .published = some (.vBool false)
    · rw [if_pos h2] at h
      exact mem_keys_dictSetdefault h
    · rw [if_neg h2] at h
      exact Or.inl h

lemma nodup_keys_publishTransition {ud : Doc} {n : Int}
    (h : (keys ud).Nodup) : (keys (publishTransition ud n)).Nodup := by
  unfold publishTransition publishFalseDefault publishTrueDefault
  by_cases h1 : pyGetTruthy ud .published
  · rw [if_pos h1]
    by_cases h2 :
        alookup (dictSetdefault ud .published_at (.vTime n)) .published
          = some (.vBool false)
    · rw [if_pos h2]
      exact nodup_keys_dictSetdefault (nodup_keys_dictSetdefault h)
    · rw [if_neg h2]
      exact nodup_keys_dictSetdefault h
  · rw [if_neg h1]
    by_cases h2 : alookup ud .published = some (.vBool false)
    · rw [if_pos h2]
      exact nodup_keys_dictSetdefault h
    · rw [if_neg h2]
      exact h

lemma updated_at_notmem_keys_publishTransition (p : BlogPostUpdate) (n : Int) :
    Field.updated_at ∉ keys (publishTransition (dumpUpdate p) n) := by
  intro hm
  rcases mem_keys_publishTransition hm with h | h
  · exact updated_at_notmem_keys_dumpUpdate p h
  · exact absurd h (by decide)

lemma nodup_keys_finalUpdateData (p : BlogPostUpdate) (n u : Int) :
    (keys (finalUpdateData p n u)).Nodup := by
  unfold finalUpdateData
  have h1 : (keys (publishTransition (dumpUpdate p) n)).Nodup :=
    nodup_keys_publishTransition (nodup_keys_dumpUpdate p)
  have h2 := updated_at_notmem_keys_publishTransition p n
  rw [dictSet_eq_append_of_notmem _ h2, keys_append_single]
  exact h1.append (List.nodup_singleton _)
    (fun a ha hb => h2 (List.mem_singleton.mp hb ▸ ha))

/-! ### Store-operation lemmas -/

lemma findOne_updateOne (db : Store) (oid : Nat) (ud : Doc) :
    findOne (updateOne db oid ud).1 oid
      = (findOne db oid).map (fun d => ⟨d.oid, applySet d.fields ud⟩) := by
  induction db with
  | nil => rfl
  | cons d rest ih =>
    by_cases hd : d.oid = oid
    · simp [updateOne, findOne, hd]
    · simp [updateOne, findOne, hd, ih]

lemma updateOne_matched (db : Store) (oid : Nat) (ud : Doc) :
    (updateOne db oid ud).2 = if (findOne db oid).isSome then 1 else 0 := by
  induction db with
  | nil => rfl
  | cons d rest ih =>
    by_cases hd : d.oid = oid
    · simp [updateOne, findOne, hd]
    · simp [updateOne, findOne, hd, ih]

lemma deleteOne_deleted (db : Store) (oid : Nat) :
    (deleteOne db oid).2 = if (findOne db oid).isSome then 1 else 0 := by
  induction db with
  | nil => rfl
  | cons d rest ih =>
    by_cases hd : d.oid = oid
    · simp [deleteOne, findOne, hd]
    · simp [deleteOne, findOne, hd, ih]

lemma findOne_append_fresh (db : Store) (d : StoredDoc)
    (h : ∀ e ∈ db, e.oid ≠ d.oid) : findOne (db ++ [d]) d.oid = some d := by
  induction db with
  | nil => simp [findOne]
  | cons e rest ih =>
    have he : ¬ e.oid = d.oid := h e (List.mem_cons_self e rest)
    simp only [List.cons_append, findOne, if_neg he]
    exact ih (fun x hx => h x (List.mem_cons_of_mem e hx))

/-! ### Descending created_at order -/

lemma keyLE_total (a b : Option Int) : keyLE a b = true ∨ keyLE b a = true := by
  cases a with
  | none => exact Or.inl rfl
  | some x =>
    cases b with
    | none => exact Or.inr rfl
    | some y =>
      rcases Int.le_total x y with h | h
      · exact Or.inl (by simpa [keyLE] using h)
      · exact Or.inr (by simpa [keyLE] using h)

lemma keyLE_trans {a b c : Option Int} (h1 : keyLE a b = true)
    (h2 : keyLE b c = true) : keyLE a c = true := by
  cases a with
  | none => rfl
  | some x =>
    cases b with
    | none => simp [keyLE] at h1
    | some y =>
      cases c with
      | none => simp [keyLE] at h2
      | some z =>
        simp only [keyLE, decide_eq_true_eq] at h1 h2 ⊢
        exact le_trans h1 h2

instance : IsTotal StoredDoc createdDesc :=
  ⟨fun a b => keyLE_total (createdKey b) (createdKey a)⟩

instance : IsTrans StoredDoc createdDesc :=
  ⟨fun _ _ _ hab hbc => keyLE_trans hbc hab⟩

/-! ### Claim theorems -/

/-- Claim C1: in the applied update set, `published=true` without
`published_at` stamps `published_at = now`; `published=false` without
`published_at` stamps `published_at = null`; and a `published_at` explicitly
supplied together with `published` is kept unchanged. -/
theorem claim1_update_publish_transition (p : BlogPostUpdate)
    (nowPub nowUpd : Int) :
    (p.published = some (some true) → p.published_at = none →
      alookup (finalUpdateData p nowPub nowUpd) .published_at
        = some (.vTime nowPub)) ∧
    (p.published = some (some false) → p.published_at = none →
      alookup (finalUpdateData p nowPub nowUpd) .published_at
        = some .vNull) ∧
    (∀ w, p.published_at = some w → p.published.isSome = true →
      alookup (finalUpdateData p nowPub nowUpd) .published_at
        = some (timeOrNull w)) := by
  refine ⟨fun hp hpa => ?_, fun hp hpa => ?_, fun w hw _ => ?_⟩
  · simp [alookup_finalUpdateData_published_at, explicitValue_published_at,
      explicitValue_published, hp, hpa, truthyVal]
  · simp [alookup_finalUpdateData_published_at, explicitValue_published_at,
      explicitValue_published, hp, hpa, truthyVal]
  · simp [alookup_finalUpdateData_published_at, explicitValue_published_at, hw]

/-- Witness for C1 at concrete payloads. -/
theorem claim1_update_publish_transition_witness :
    alookup (finalUpdateData { published := some (some true) } 5 6)
        .published_at = some (.vTime 5) ∧
    alookup (finalUpdateData { published := some (some false) } 5 6)
        .published_at = some .vNull ∧
    alookup (finalUpdateData
        { published := some (some true), published_at := some (some 99) } 5 6)
        .published_at = some (.vTime 99) :=
  ⟨(claim1_update_publish_transition _ 5 6).1 rfl rfl,
   (claim1_update_publish_transition _ 5 6).2.1 rfl rfl,
   (claim1_update_publish_transition _ 5 6).2.2 (some 99) rfl rfl⟩

/-- Claim C6: an update whose body has zero explicitly-supplied fields yields
HTTP 400 for any identifier, the collection is unchanged, and the storage
write is never reached. -/
theorem claim6_empty_update_rejected (s : String) (p : BlogPostUpdate)
    (nowPub nowUpd : Int) (db : Store) (updateRaises : Bool)
    (h : dumpUpdate p = []) :
    (update_post s p nowPub nowUpd db updateRaises).result.isStatus 400 = true ∧
    (update_post s p nowPub nowUpd db updateRaises).db = db ∧
    (update_post s p nowPub nowUpd db updateRaises).storageCalled = false := by
  unfold update_post
  cases hid : parseObjectId s with
  | none => exact ⟨rfl, rfl, rfl⟩
  | some oid => simp [h, HResult.isStatus]

/-- Witness for C6: the all-unset payload on a valid id and nonempty store. -/
theorem claim6_empty_update_rejected_witness :
    (update_post ("000000000000000000000001") {} 5 6 [⟨1, []⟩] false).result.isStatus
        400 = true ∧
    (update_post ("000000000000000000000001") {} 5 6 [⟨1, []⟩] false).db = [⟨1, []⟩] ∧
    (update_post ("000000000000000000000001") {} 5 6 [⟨1, []⟩] false).storageCalled
        = false :=
  claim6_empty_update_rejected ("000000000000000000000001") {} 5 6 [⟨1, []⟩]
    false (by decide)

/-- Claim C7 (code bug): the `try` block of `get_post` wraps the `find_one`
call, so a storage-layer exception during the fetch of a syntactically valid,
existing id is converted to the 400 "Invalid post id" client error instead of
propagating as a 5xx server error. -/
theorem claim7_get_post_storage_error_becomes_400 :
    parseObjectId ("000000000000000000000001") = some 1 ∧
    findOne [⟨1, [(Field.title, Value.vStr ("t"))]⟩] 1
      = some ⟨1, [(Field.title, Value.vStr ("t"))]⟩ ∧
    get_post ("000000000000000000000001")
        [⟨1, [(Field.title, Value.vStr ("t"))]⟩] true
      = .httpError 400 ("Invalid post id") := by
  refine ⟨by decide, by decide, by decide⟩

/-- Claim C8: the diagnostics endpoint always returns a response object (the
model is a total function), reports the process as running, caps the reported
collection list at 10 entries, and turns a storage failure into a
descriptive status string rather than an error. -/
theorem claim8_diagnostics_never_fails (avail urlSet : Bool)
    (name : Option String) (cols : Except String (List String)) :
    (test_database avail urlSet name cols).backend = "✅ Running" ∧
    (test_database avail urlSet name cols).collections.length ≤ 10 ∧
    (∀ e, cols = .error e → avail = true →
      (test_database avail urlSet name cols).database
        = "⚠️ Connected but Error: " ++ e.take 80) := by
  unfold test_database
  cases avail with
  | false => simp
  | true =>
    cases cols with
    | ok l =>
      refine ⟨rfl, ?_, ?_⟩
      · simp [List.length_take]
      · intro e he
        exact absurd he (by simp)
    | error e => simp

/-- Witness for C8: a raising `list_collection_names` is rendered as a
status string. -/
theorem claim8_diagnostics_never_fails_witness :
    (test_database true true (some ("blogdb")) (.error ("boom"))).database
      = "⚠️ Connected but Error: " ++ ("boom").take 80 :=
  (claim8_diagnostics_never_fails true true (some ("blogdb"))
    (.error ("boom"))).2.2 ("boom") rfl rfl

/-- Claim C10: because `list_posts` tests the `tag` parameter for truthiness,
an empty-string tag adds no filter: the listing equals the unfiltered one,
and may return posts whose tags do not contain the empty string. -/
theorem claim10_empty_tag_ignored (pub : Option Bool) (limit : Int)
    (db : Store) :
    (listDocs pub (some ("")) limit db = listDocs pub none limit db ∧
     list_posts pub (some ("")) limit db = list_posts pub none limit db) ∧
    listDocs none (some ("")) 50 [⟨1, [(Field.tags, Value.vList [("x")])]⟩]
      = [⟨1, [(Field.tags, Value.vList [("x")])]⟩] ∧
    ¬ (("") ∈ [("x")]) := by
  have hfilter : db.filter (matchesFilter pub (some ("")))
      = db.filter (matchesFilter pub none) :=
    List.filter_congr (fun d _ => by simp [matchesFilter, tagFilterActive])
  refine ⟨⟨?_, ?_⟩, by decide, by decide⟩
  · unfold listDocs
    rw [hfilter]
  · unfold list_posts listDocs
    rw [hfilter]

/-- A field explicitly supplied in the body survives into the applied update
set unchanged (the `published_at` setdefault never overwrites it). -/
lemma alookup_finalUpdateData_of_explicit {p : BlogPostUpdate} {f : Field}
    {v : Value} (n u : Int) (hv : explicitValue p f = some v) :
    alookup (finalUpdateData p n u) f = some v := by
  by_cases h1 : f = .published_at
  · subst h1
    simp [alookup_finalUpdateData_published_at, hv]
  · by_cases h2 : f = .updated_at
    · subst h2
      rw [explicitValue_updated_at] at hv
      exact absurd hv (by simp)
    · rw [alookup_finalUpdateData_ne _ _ _ h1 h2]
      exact hv

/-- When the id parses, the document exists and the body is nonempty, the
collection after `update_post` is the one produced by `update_one`. -/
lemma update_post_db_of_found {s : String} {p : BlogPostUpdate}
    {nPub nUpd : Int} {db : Store} {oid : Nat} {old : StoredDoc}
    (hid : parseObjectId s = some oid) (hfind : findOne db oid = some old)
    (hne : dumpUpdate p ≠ []) :
    (update_post s p nPub nUpd db false).db
      = (updateOne db oid (finalUpdateData p nPub nUpd)).1 := by
  have hm : (updateOne db oid (finalUpdateData p nPub nUpd)).2 = 1 := by
    rw [updateOne_matched, hfind]
    rfl
  simp only [update_post, hid, if_neg hne, hm]
  cases hf : findOne (updateOne db oid (finalUpdateData p nPub nUpd)).1 oid with
  | none => simp [hf]
  | some d => cases hs : serialize_post d <;> simp [hf, hs]

/-- Claim C2: partial-update semantics.  On a successful update the stored
document is the old one with exactly the applied update set written over it:
every explicitly-supplied field (explicit nulls included) takes the supplied
value, and every field that is neither supplied nor one of the handler-stamped
`published_at`/`updated_at` keeps its previous value. -/
theorem claim2_partial_update_frame (s : String) (p : BlogPostUpdate)
    (nPub nUpd : Int) (db : Store) (oid : Nat) (old : StoredDoc)
    (hid : parseObjectId s = some oid) (hfind : findOne db oid = some old)
    (hne : dumpUpdate p ≠ []) :
    (findOne (update_post s p nPub nUpd db false).db oid
        = some ⟨old.oid, applySet old.fields (finalUpdateData p nPub nUpd)⟩) ∧
    (∀ f v, explicitValue p f = some v →
        alookup (applySet old.fields (finalUpdateData p nPub nUpd)) f
          = some v) ∧
    (∀ f, explicitValue p f = none → f ≠ .published_at → f ≠ .updated_at →
        alookup (applySet old.fields (finalUpdateData p nPub nUpd)) f
          = alookup old.fields f) := by
  refine ⟨?_, ?_, ?_⟩
  · rw [update_post_db_of_found hid hfind hne, findOne_updateOne, hfind]
    rfl
  · intro f v hv
    rw [alookup_applySet _ _ _ (nodup_keys_finalUpdateData p nPub nUpd)]
    simp [alookup_finalUpdateData_of_explicit nPub nUpd hv]
  · intro f hv h1 h2
    rw [alookup_applySet _ _ _ (nodup_keys_finalUpdateData p nPub nUpd)]
    rw [alookup_finalUpdateData_ne _ _ _ h1 h2, hv]

/-- Witness for C2: updating only `title` rewrites `title`, stamps
`updated_at`, and leaves `content` untouched. -/
theorem claim2_partial_update_frame_witness :
    (findOne (update_post ("000000000000000000000001")
          { title := some (some ("new")) } 5 6
          [⟨1, [(Field.title, Value.vStr ("old")),
                (Field.content, Value.vStr ("body"))]⟩] false).db 1
      = some ⟨1, applySet
          [(Field.title, Value.vStr ("old")),
           (Field.content, Value.vStr ("body"))]
          (finalUpdateData { title := some (some ("new")) } 5 6)⟩) ∧
    (alookup (applySet
          [(Field.title, Value.vStr ("old")),
           (Field.content, Value.vStr ("body"))]
          (finalUpdateData { title := some (some ("new")) } 5 6)) Field.title
      = some (Value.vStr ("new"))) ∧
    (alookup (applySet
          [(Field.title, Value.vStr ("old")),
           (Field.content, Value.vStr ("body"))]
          (finalUpdateData { title := some (some ("new")) } 5 6)) Field.content
      = alookup [(Field.title, Value.vStr ("old")),
                 (Field.content, Value.vStr ("body"))] Field.content) :=
  ⟨(claim2_partial_update_frame ("000000000000000000000001")
      { title := some (some ("new")) } 5 6
      [⟨1, [(Field.title, Value.vStr ("old")),
            (Field.content, Value.vStr ("body"))]⟩] 1
      ⟨1, [(Field.title, Value.vStr ("old")),
           (Field.content, Value.vStr ("body"))]⟩ (by decide) (by decide)
      (by decide)).1,
   (claim2_partial_update_frame ("000000000000000000000001")
      { title := some (some ("new")) } 5 6
      [⟨1, [(Field.title, Value.vStr ("old")),
            (Field.content, Value.vStr ("body"))]⟩] 1
      ⟨1, [(Field.title, Value.vStr ("old")),
           (Field.content, Value.vStr ("body"))]⟩ (by decide) (by decide)
      (by decide)).2.1 Field.title (Value.vStr ("new")) (by decide),
   (claim2_partial_update_frame ("000000000000000000000001")
      { title := some (some ("new")) } 5 6
      [⟨1, [(Field.title, Value.vStr ("old")),
            (Field.content, Value.vStr ("body"))]⟩] 1
      ⟨1, [(Field.title, Value.vStr ("old")),
           (Field.content, Value.vStr ("body"))]⟩ (by decide) (by decide)
      (by decide)).2.2 Field.content (by decide) (by decide) (by decide)⟩

/-- Counterexample to Claim C5 as stated: an identifier that parses and
matches no stored document does NOT always give 404 on update — with an empty
update body the handler returns 400 ("No data to update") first. -/
theorem claim5_counterexample :
    parseObjectId ("000000000000000000000001") = some 1 ∧
    findOne [] 1 = none ∧
    (update_post ("000000000000000000000001") {} 5 6 [] false).result
      = .httpError 400 ("No data to update") := by
  refine ⟨by decide, rfl, by decide⟩

/-- Claim C5 (amended): a malformed identifier gives 400 on get, update and
delete; a parseable identifier matching no document gives 404 on get and
delete, and on update provided the body supplies at least one field. -/
theorem claim5_id_error_codes (s : String) (db : Store) (p : BlogPostUpdate)
    (nPub nUpd : Int) :
    (parseObjectId s = none →
      (get_post s db false).isStatus 400 = true ∧
      (update_post s p nPub nUpd db false).result.isStatus 400 = true ∧
      (delete_post s db false).result.isStatus 400 = true) ∧
    (∀ oid, parseObjectId s = some oid → findOne db oid = none →
      (get_post s db false).isStatus 404 = true ∧
      (dumpUpdate p ≠ [] →
        (update_post s p nPub nUpd db false).result.isStatus 404 = true) ∧
      (delete_post s db false).result.isStatus 404 = true) := by
  constructor
  · intro h
    refine ⟨?_, ?_, ?_⟩ <;>
      simp [get_post, update_post, delete_post, h, HResult.isStatus]
  · intro oid hid hnone
    have hm : (updateOne db oid (finalUpdateData p nPub nUpd)).2 = 0 := by
      rw [updateOne_matched, hnone]
      rfl
    have hdel : (deleteOne db oid).2 = 0 := by
      rw [deleteOne_deleted, hnone]
      rfl
    refine ⟨?_, fun hne => ?_, ?_⟩
    · simp [get_post, hid, hnone, HResult.isStatus]
    · simp [update_post, hid, if_neg hne, hm, HResult.isStatus]
    · simp [delete_post, hid, hdel, HResult.isStatus]

/-- Witness for C5 (amended) at concrete inputs. -/
theorem claim5_id_error_codes_witness :
    (get_post ("zz") [] false).isStatus 400 = true ∧
    (get_post ("000000000000000000000001") [] false).isStatus 404 = true ∧
    (update_post ("000000000000000000000001")
        { title := some (some ("x")) } 5 6 [] false).result.isStatus 404
      = true ∧
    (delete_post ("000000000000000000000001") [] false).result.isStatus 404
      = true :=
  ⟨((claim5_id_error_codes ("zz") [] {} 0 0).1 (by decide)).1,
   ((claim5_id_error_codes ("000000000000000000000001") []
      { title := some (some ("x")) } 5 6).2 1 (by decide) rfl).1,
   (((claim5_id_error_codes ("000000000000000000000001") []
      { title := some (some ("x")) } 5 6).2 1 (by decide) rfl).2.1
      (by decide)),
   ((claim5_id_error_codes ("000000000000000000000001") []
      { title := some (some ("x")) } 5 6).2 1 (by decide) rfl).2.2⟩

/-- Counterexample to Claim C4 as stated: the result length does not stay
below "every integer limit" — pymongo treats `limit=0` as "no limit", so with
one stored post and `limit=0` the listing returns 1 > 0 documents. -/
theorem claim4_counterexample :
    (0 : Int) < ((listDocs none none 0 [⟨1, []⟩]).length : Int) := by decide

/-- Claim C4 (amended): every returned document matches the filter, the
result is sorted by `created_at` descending, and for every POSITIVE limit the
result count is at most the limit (`limit=0` disables the cap and a negative
limit caps at its absolute value, per the store's cursor semantics). -/
theorem claim4_list_filter_sort_limit (pub : Option Bool) (tag : Option String)
    (limit : Int) (db : Store) :
    (∀ d ∈ listDocs pub tag limit db, matchesFilter pub tag d = true) ∧
    List.Sorted createdDesc (listDocs pub tag limit db) ∧
    (0 < limit → ((listDocs pub tag limit db).length : Int) ≤ limit) := by
  unfold listDocs applyLimit
  by_cases hl : limit = 0
  · rw [if_pos hl]
    refine ⟨?_, ?_, ?_⟩
    · intro d hd
      exact (List.mem_filter.mp
        ((List.perm_insertionSort createdDesc _).subset hd)).2
    · exact List.sorted_insertionSort createdDesc _
    · intro h
      exact absurd hl (by omega)
  · rw [if_neg hl]
    refine ⟨?_, ?_, ?_⟩
    · intro d hd
      exact (List.mem_filter.mp
        ((List.perm_insertionSort createdDesc _).subset
          (List.take_subset _ _ hd))).2
    · exact List.Pairwise.sublist (List.take_sublist _ _)
        (List.sorted_insertionSort createdDesc _)
    · intro h
      have h1 : (List.take limit.natAbs
          (List.insertionSort createdDesc
            (db.filter (matchesFilter pub tag)))).length ≤ limit.natAbs := by
        rw [List.length_take]
        exact min_le_left _ _
      omega

/-- Witness for C4 (amended) at a concrete store and positive limit. -/
theorem claim4_list_filter_sort_limit_witness :
    matchesFilter (some true) (some ("a"))
      ⟨1, [(Field.published, Value.vBool true),
           (Field.tags, Value.vList [("a")])]⟩ = true ∧
    ((listDocs (some true) (some ("a")) 1
        [⟨1, [(Field.published, Value.vBool true),
              (Field.tags, Value.vList [("a")])]⟩]).length : Int) ≤ 1 :=
  ⟨(claim4_list_filter_sort_limit (some true) (some ("a")) 1
      [⟨1, [(Field.published, Value.vBool true),
            (Field.tags, Value.vList [("a")])]⟩]).1
      ⟨1, [(Field.published, Value.vBool true),
           (Field.tags, Value.vList [("a")])]⟩ (by decide),
   (claim4_list_filter_sort_limit (some true) (some ("a")) 1
      [⟨1, [(Field.published, Value.vBool true),
            (Field.tags, Value.vList [("a")])]⟩]).2.2 (by decide)⟩

lemma asOptStr_strOrNull (o : Option String) :
    asOptStr (some (strOrNull o)) = some o := by
  cases o <;> rfl

lemma asOptTime_timeOrNull (o : Option Int) :
    asOptTime (some (timeOrNull o)) = some o := by
  cases o <;> rfl

lemma asOptTime_none : asOptTime none = some none := rfl

/-- Serializing a freshly created document succeeds and returns the payload
fields (with `created_at`/`updated_at` absent, hence `None`). -/
lemma serialize_createdDoc (p : BlogPostCreate) (newId : Nat)
    (pa : Option Int) :
    serialize_post ⟨newId,
      [(.title, .vStr p.title), (.slug, .vStr p.slug),
       (.excerpt, strOrNull p.excerpt), (.content, .vStr p.content),
       (.author, .vStr p.author),
       (.cover_image_url, strOrNull p.cover_image_url),
       (.tags, .vList p.tags), (.published, .vBool p.published),
       (.published_at, timeOrNull pa)]⟩
      = some ⟨oidString newId, p.title, p.slug, p.excerpt, p.content, p.author,
              p.cover_image_url, p.tags, p.published, pa, none, none⟩ := by
  simp [serialize_post, alookup, asStr, asTags, asBool, asOptTime_none,
    asOptStr_strOrNull, asOptTime_timeOrNull]

/-- Claim C3: creating with `published=true` and no `published_at` stamps the
response's `published_at` with the handler's current time; creating with
`published=false` stores exactly the supplied `published_at` (null when
omitted). -/
theorem claim3_create_published_at (p : BlogPostCreate) (now : Int)
    (db : Store) (newId : Nat) (_hval : validCreate p)
    (hfresh : ∀ d ∈ db, d.oid ≠ newId) :
    (p.published = true → p.published_at = none →
      ((create_post p now db newId).1).map (fun o => o.published_at)
        = some (some now)) ∧
    (p.published = false →
      ((create_post p now db newId).1).map (fun o => o.published_at)
        = some p.published_at) := by
  constructor
  · intro hp hpa
    have hcond : (pyGetTruthy (createDump p) .published
        && !(pyGetTruthy (createDump p) .published_at)) = true := by
      show (p.published && !(truthyVal (timeOrNull p.published_at))) = true
      rw [hp, hpa]
      rfl
    have hfind := findOne_append_fresh db
      ⟨newId, dictSet (createDump p) .published_at (.vTime now)⟩ hfresh
    have hser : serialize_post
        ⟨newId, dictSet (createDump p) .published_at (.vTime now)⟩
        = some ⟨oidString newId, p.title, p.slug, p.excerpt, p.content,
                p.author, p.cover_image_url, p.tags, p.published, some now,
                none, none⟩ :=
      serialize_createdDoc p newId (some now)
    simp [create_post, create_document, hcond, hfind, hser]
  · intro hp
    have hcond : (pyGetTruthy (createDump p) .published
        && !(pyGetTruthy (createDump p) .published_at)) = false := by
      show (p.published && !(truthyVal (timeOrNull p.published_at))) = false
      rw [hp]
      rfl
    have hfind := findOne_append_fresh db ⟨newId, createDump p⟩ hfresh
    have hser : serialize_post ⟨newId, createDump p⟩
        = some ⟨oidString newId, p.title, p.slug, p.excerpt, p.content,
                p.author, p.cover_image_url, p.tags, p.published,
                p.published_at, none, none⟩ :=
      serialize_createdDoc p newId p.published_at
    simp [create_post, create_document, hcond, hfind, hser]

/-- Witness for C3 at concrete create payloads. -/
theorem claim3_create_published_at_witness :
    ((create_post
        ⟨"Big Title", "big-slug", none, "body", "Jo", none, [], true, none⟩
        7 [] 3).1).map (fun o => o.published_at) = some (some 7) ∧
    ((create_post
        ⟨"Big Title", "big-slug", none, "body", "Jo", none, [], false, some 9⟩
        7 [] 3).1).map (fun o => o.published_at) = some (some 9) ∧
    ((create_post
        ⟨"Big Title", "big-slug", none, "body", "Jo", none, [], false, none⟩
        7 [] 3).1).map (fun o => o.published_at) = some none :=
  ⟨(claim3_create_published_at
      ⟨"Big Title", "big-slug", none, "body", "Jo", none, [], true, none⟩
      7 [] 3 (by constructor <;> decide) (by simp)).1 rfl rfl,
   (claim3_create_published_at
      ⟨"Big Title", "big-slug", none, "body", "Jo", none, [], false, some 9⟩
      7 [] 3 (by constructor <;> decide) (by simp)).2 rfl,
   (claim3_create_published_at
      ⟨"Big Title", "big-slug", none, "body", "Jo", none, [], false, none⟩
      7 [] 3 (by constructor <;> decide) (by simp)).2 rfl⟩

/-- Counterexample to Claim C9 as stated: an update whose body explicitly
sets `tags` to null is accepted by the update schema
(`tags: Optional[List[str]]`) and `$set`s null as the stored tags value, so a
reachable state does hold a null `tags`. -/
theorem claim9_counterexample :
    (findOne (update_post ("000000000000000000000001")
        { tags := some none } 5 6
        [⟨1, [(Field.title, Value.vStr ("t")),
              (Field.tags, Value.vList [])]⟩] false).db 1).map
      (fun d => alookup d.fields Field.tags)
      = some (some Value.vNull) := by decide

/-- Claim C9 (amended): the create path always stores `tags` as the supplied
list (default empty, never null); serialization substitutes the empty list
when `tags` is missing; and an update that omits `tags` leaves the stored
value untouched — but an update explicitly supplying `tags = null` stores
null (see the counterexample). -/
theorem claim9_tags_default (p : BlogPostCreate) (now : Int) (db : Store)
    (newId : Nat) (q : BlogPostUpdate) (nPub nUpd : Int) (sd : StoredDoc)
    (out : BlogPostOut) :
    ((∀ d ∈ db, d.oid ≠ newId) →
      (findOne (create_post p now db newId).2 newId).map
          (fun d => alookup d.fields .tags)
        = some (some (.vList p.tags))) ∧
    (alookup sd.fields .tags = none → serialize_post sd = some out →
      out.tags = []) ∧
    (q.tags = none → alookup (finalUpdateData q nPub nUpd) .tags = none) := by
  refine ⟨fun hfresh => ?_, fun htags hser => ?_, fun hq => ?_⟩
  · by_cases hcond : (pyGetTruthy (createDump p) .published
        && !(pyGetTruthy (createDump p) .published_at)) = true
    · have hfind := findOne_append_fresh db
        ⟨newId, dictSet (createDump p) .published_at (.vTime now)⟩ hfresh
      simp [create_post, create_document, hcond, hfind]
      rfl
    · have hfind := findOne_append_fresh db ⟨newId, createDump p⟩ hfresh
      simp [create_post, create_document, hcond, hfind]
      rfl
  · simp only [serialize_post, Option.bind_eq_bind, htags, asTags,
      Option.bind_eq_some] at hser
    obtain ⟨t1, h1, t2, h2, t3, h3, t4, h4, t5, h5, t6, h6, t7, h7, t8, h8,
      t9, h9, t10, h10, t11, h11, hser⟩ := hser
    rw [← Option.some.inj hser]
    exact (Option.some.inj h7).symm
  · rw [alookup_finalUpdateData_ne _ _ _ (by decide) (by decide),
      explicitValue_tags, hq]
    rfl

/-- Witness for C9 (amended) at concrete inputs. -/
theorem claim9_tags_default_witness :
    (findOne (create_post
        ⟨"Big Title", "big-slug", none, "body", "Jo", none, [], false, none⟩
        7 [] 3).2 3).map (fun d => alookup d.fields Field.tags)
      = some (some (Value.vList [])) ∧
    (serialize_post ⟨1, [(Field.title, Value.vStr ("t")),
        (Field.slug, Value.vStr ("slg")), (Field.content, Value.vStr ("c")),
        (Field.author, Value.vStr ("a"))]⟩).map (fun o => o.tags)
      = some [] ∧
    alookup (finalUpdateData {} 5 6) Field.tags = none := by
  have h2 := (claim9_tags_default
      ⟨"Big Title", "big-slug", none, "body", "Jo", none, [], false, none⟩
      7 [] 3 {} 5 6
      ⟨1, [(Field.title, Value.vStr ("t")), (Field.slug, Value.vStr ("slg")),
           (Field.content, Value.vStr ("c")),
           (Field.author, Value.vStr ("a"))]⟩
      ⟨oidString 1, "t", "slg", none, "c", "a", none, [], false, none, none,
       none⟩)
  refine ⟨h2.1 (by simp), ?_, h2.2.2 rfl⟩
  have h3 := h2.2.1 (by decide) (by decide)
  rw [show serialize_post ⟨1, [(Field.title, Value.vStr ("t")),
        (Field.slug, Value.vStr ("slg")), (Field.content, Value.vStr ("c")),
        (Field.author, Value.vStr ("a"))]⟩
      = some ⟨oidString 1, "t", "slg", none, "c", "a", none, [], false, none,
              none, none⟩ from by decide]
  simp [h3]

end Blog
